import Mathlib

/-!
Verification of the frontend script of the scholarship-recommender web app
(`src/web_app/web_app/static/js/script.js`), as a shallow embedding in Lean.

The script is DOM-event glue: a feedback-form submission flow (`submitFeedback`
with its then/catch/finally promise chain), a single-open-collapse click
handler, a busy-state submit handler, a transient alert banner (`showAlert`)
with a 5000 ms auto-removal timer, a dormant `ScholarshipAPI.getRecommendations`
helper, and the pure utilities `formatScore` and `getScoreColor`.

Modelling conventions:
* JavaScript numbers are modelled exactly: `JSNum` is a rational together with
  `NaN` and the two infinities; `jsGe` is the `>=` comparison (false whenever
  `NaN` is involved).  Where only finite values matter (`formatScore`) the
  argument is a rational.
* The DOM state touched by the script is a `Page`: the `.container` element
  (which may be absent), its alert-banner children (head of the list = first
  child), pending auto-removal timers, the submitting form's fields, submit
  button and nearest `.collapse` ancestor, and the page's collapsible panels.
* A thrown DOM exception is `Except.error`; `fetch` plus JSON decoding is an
  oracle outcome `FetchOutcome` (a decoded `{status, error}` body, or a
  rejection covering both network failure and undecodable bodies).
* `bootstrap.Collapse.getInstance(el).hide()` is modelled as hiding the panel:
  an instance exists for any panel the user has opened, which is the case on
  every path where the script calls it after a form inside that panel was
  submitted or its toggle was clicked.
-/

/-- A JavaScript number: a finite (exact) rational, `NaN`, or an infinity. -/
inductive JSNum where
  | nan
  | posInf
  | negInf
  | num (val : ℚ)
deriving Repr, DecidableEq

/-- JavaScript `>=` on numbers: any comparison involving `NaN` is false;
infinities compare as expected; finite values compare as rationals. -/
def jsGe : JSNum → JSNum → Bool
  | .nan, _ => false
  | _, .nan => false
  | .posInf, _ => true
  | .negInf, .negInf => true
  | .negInf, _ => false
  | .num _, .posInf => false
  | .num _, .negInf => true
  | .num a, .num b => decide (b ≤ a)

/-- `getScoreColor(score)` from script.js:
`if (score >= 0.8) return 'success'; if (score >= 0.6) return 'warning';
return 'secondary';`. -/
def getScoreColor (score : JSNum) : String :=
  if jsGe score (.num 0.8) then "success"
  else if jsGe score (.num 0.6) then "warning"
  else "secondary"

/-- `Number.prototype.toFixed(1)` for a non-negative value (the only use in
script.js is on `score * 100` with a unit-interval score): the ECMAScript
algorithm picks the integer `n` minimising `|n / 10 - q|`, larger `n` on ties,
and prints `n` with one decimal digit.  For every real `q` that integer is
`⌊q * 10 + 1/2⌋`. -/
def toFixed1 (q : ℚ) : String :=
  let n : ℤ := ⌊q * 10 + 1/2⌋
  toString (n / 10) ++ "." ++ toString (n % 10)

/-- `formatScore(score)` from script.js: `(score * 100).toFixed(1) + '%'`. -/
def formatScore (score : ℚ) : String :=
  toFixed1 (score * 100) ++ "%"

/-!
The DOM model: the page state touched by the script's event handlers.
-/

/-- The outcome of `fetch('/feedback', …).then(r => r.json())`: either a
decoded JSON body (its `status` field and its `error` field, read as strings),
or a rejection — covering both network failure and an undecodable body. -/
inductive FetchOutcome where
  | response (status : String) (errMsg : String)
  | failure
deriving Repr, DecidableEq

/-- An alert banner created by `showAlert`: its creation identity, message
text and Bootstrap severity (the `alert-<severity>` class). -/
structure AlertDiv where
  id : Nat
  message : String
  severity : String
deriving Repr, DecidableEq

/-- A form's submit button: its `innerHTML` label and `disabled` flag. -/
structure SubmitButton where
  innerHTML : String
  disabled : Bool
deriving Repr, DecidableEq

/-- A collapsible panel (`.collapse` element): its `id` and whether it is
currently expanded (has the `show` class). -/
structure Panel where
  id : String
  shown : Bool
deriving Repr, DecidableEq

/-- The submitting form: its field values (`reset()` clears them to the empty
string), its `querySelector('button[type="submit"]')` result, and the `id` of
its nearest `.collapse` ancestor (`closest('.collapse')`), when one exists. -/
structure FormState where
  fields : List String
  submitBtn : Option SubmitButton
  closestCollapse : Option String
deriving Repr, DecidableEq

/-- The DOM state the script reads and writes: whether a `.container` element
exists, that container's alert-banner children (head = first child), the id
counter for fresh banners, the current time in ms, the pending auto-removal
timers as `(fireAt, alertId)` pairs, the submitting form, and the page's
collapsible panels. -/
structure Page where
  hasContainer : Bool
  containerChildren : List AlertDiv
  nextId : Nat
  now : Nat
  timers : List (Nat × Nat)
  form : FormState
  panels : List Panel
deriving Repr, DecidableEq

/-- The auto-removal delay passed to `setTimeout` in `showAlert`: 5000 ms. -/
def alertTimeout : Nat := 5000

/-- The successful effect of `showAlert`: the fresh banner div becomes the
container's first child
(`container.insertBefore(alertDiv, container.firstChild)`), and its
auto-removal is scheduled `alertTimeout` ms from now. -/
def alertInserted (message severity : String) (p : Page) : Page :=
  { p with
    containerChildren := ⟨p.nextId, message, severity⟩ :: p.containerChildren,
    nextId := p.nextId + 1,
    timers := (p.now + alertTimeout, p.nextId) :: p.timers }

/-- `showAlert(message, type)` from script.js: creates the banner div and
inserts it before the container's first child, then schedules its auto-removal
`alertTimeout` ms later.  When no `.container` element exists,
`document.querySelector('.container')` is `null` and the `insertBefore` call
throws a `TypeError` before anything is inserted. -/
def showAlert (message severity : String) (p : Page) : Except String Page :=
  if p.hasContainer then
    .ok (alertInserted message severity p)
  else
    .error "TypeError"

/-- Manual dismissal of a banner (the `btn-close` button / `alertDiv.remove()`):
detaches it from the container. -/
def dismissAlert (aid : Nat) (p : Page) : Page :=
  { p with containerChildren := p.containerChildren.filter (fun d => !(d.id == aid)) }

/-- The `setTimeout` callback in `showAlert`: `if (alertDiv.parentNode)
{ alertDiv.remove(); }` — removes the banner if it is still attached, and is a
guarded no-op (never an error) when it was already dismissed. -/
def fireAlertTimeout (aid : Nat) (p : Page) : Page :=
  if p.containerChildren.any (fun d => d.id == aid) then dismissAlert aid p else p

/-- The busy label set by the generic submit listener:
`'<i class="fas fa-spinner fa-spin"></i> Processing...'`. -/
def processingLabel : String := "<i class=\"fas fa-spinner fa-spin\"></i> Processing..."

/-- The fixed label written by `submitFeedback`'s `finally` block:
`'<i class="fas fa-check"></i> Submit'`. -/
def submitRestoreLabel : String := "<i class=\"fas fa-check\"></i> Submit"

/-- The generic submit listener attached to every form on the page: if the
form has a submit button, set its label to the spinner markup and disable it. -/
def setBusyState (p : Page) : Page :=
  match p.form.submitBtn with
  | some _ => { p with form := { p.form with submitBtn := some ⟨processingLabel, true⟩ } }
  | none => p

/-- `submitFeedback`'s `finally` block: if the form has a submit button, set
its label to the fixed check-mark markup and re-enable it. -/
def restoreSubmitBtn (p : Page) : Page :=
  match p.form.submitBtn with
  | some _ => { p with form := { p.form with submitBtn := some ⟨submitRestoreLabel, false⟩ } }
  | none => p

/-- Hiding one collapsible panel (`bootstrap.Collapse.getInstance(el).hide()`):
the panel with the given id loses its `show` class. -/
def hidePanel (pid : String) (panels : List Panel) : List Panel :=
  panels.map (fun pl => if pl.id == pid then { pl with shown := false } else pl)

/-- Whether some panel with the given id is currently expanded. -/
def panelExpanded (pid : String) (panels : List Panel) : Bool :=
  panels.any (fun pl => pl.id == pid && pl.shown)

/-- `formElement.reset()`: every field of the form goes back to its default
(empty) value. -/
def resetFormFields (p : Page) : Page :=
  { p with form := { p.form with fields := p.form.fields.map (fun _ => "") } }

/-- `formElement.closest('.collapse')` followed by
`bootstrap.Collapse.getInstance(collapseElement).hide()`, guarded by the
`if (collapseElement)` null check: hides the nearest `.collapse` ancestor
when one exists. -/
def collapseClosest (p : Page) : Page :=
  match p.form.closestCollapse with
  | some cid => { p with panels := hidePanel cid p.panels }
  | none => p

/-- The `.then(data => …)` handler of `submitFeedback`, applied to the decoded
body: on `status === 'success'` it shows the fixed success alert, resets the
form's fields, and hides the nearest `.collapse` ancestor when one exists;
otherwise it shows a danger alert embedding the body's `error` field.  An
`Except.error` is a thrown exception (only `showAlert` can throw here, and it
throws before mutating anything, so the state at the throw is the input
state). -/
def handleFeedbackResponse (status errMsg : String) (p : Page) : Except String Page :=
  if status == "success" then
    (showAlert "Thank you for your feedback!" "success" p).map
      (fun p1 => collapseClosest (resetFormFields p1))
  else
    showAlert ("Error submitting feedback: " ++ errMsg) "danger" p

/-- The `.catch(error => …)` handler of `submitFeedback`: logs the failure and
shows the generic danger alert (which itself throws when no container
exists). -/
def handleFeedbackError (p : Page) : Except String Page :=
  showAlert "Error submitting feedback. Please try again." "danger" p

/-- The `catch` stage of the promise chain: runs the `catch` handler on the
state left by the failed stage; if the handler itself throws, the chain ends
rejected (flag `true`) with no further mutation. -/
def runCatchStage (p : Page) : Page × Bool :=
  match handleFeedbackError p with
  | .ok p2 => (p2, false)
  | .error _ => (p, true)

/-- The `then`/`catch` stages of `submitFeedback`'s promise chain applied to a
fetch outcome: a rejected fetch (or decode) skips straight to `catch`; a
decoded body runs the `then` handler, falling through to `catch` if it
throws. -/
def submitFeedbackThenCatch (outcome : FetchOutcome) (p : Page) : Page × Bool :=
  match outcome with
  | .failure => runCatchStage p
  | .response status errMsg =>
    match handleFeedbackResponse status errMsg p with
    | .ok p1 => (p1, false)
    | .error _ => runCatchStage p

/-- `submitFeedback(formData, formElement)` from script.js, as the promise
chain `fetch → then → catch → finally` applied to a fetch outcome.  The
returned flag is `true` when the chain ends rejected (an alert handler threw
both in `then` and in `catch`).  The `finally` block (re-enable the submit
button, fixed label) runs on every path. -/
def submitFeedback (outcome : FetchOutcome) (p : Page) : Page × Bool :=
  (restoreSubmitBtn (submitFeedbackThenCatch outcome p).1,
   (submitFeedbackThenCatch outcome p).2)

/-- A whole feedback-form submission event: both submit listeners fire
synchronously (the feedback listener starts the fetch, the generic listener
sets the busy state), and the promise handlers of `submitFeedback` run
afterwards, once the fetch outcome is known. -/
def feedbackSubmitFlow (outcome : FetchOutcome) (p : Page) : Page × Bool :=
  submitFeedback outcome (setBusyState p)

/-- Whether a fetch outcome is a decoded body with `status === 'success'`. -/
def isSuccessResponse : FetchOutcome → Bool
  | .response status _ => status == "success"
  | .failure => false

/-- The `.feedback-btn` click listener: reads the button's `data-bs-target`
(`"#<id>"`), and hides every currently-expanded panel whose id differs from
`target.substring(1)`. -/
def feedbackBtnClick (bsTarget : String) (panels : List Panel) : List Panel :=
  panels.map (fun pl =>
    if pl.shown && !(pl.id == bsTarget.drop 1) then { pl with shown := false } else pl)

/-- The request URL built by `ScholarshipAPI.getRecommendations`:
`` `/api/recommend/${studentId}?top_n=${topN}` ``. -/
def recommendUrl (studentId : String) (topN : Nat) : String :=
  "/api/recommend/" ++ studentId ++ "?top_n=" ++ toString topN

/-- `ScholarshipAPI.getRecommendations(studentId, topN)` from script.js, over a
fetch-and-decode oracle: returns the requested URL together with the decoded
body, or `none` (JavaScript `null`) when the request or the decode fails — the
`try/catch` swallows the failure, so nothing propagates to the caller. -/
def getRecommendations (fetchJson : String → Except String α)
    (studentId : String) (topN : Nat) : String × Option α :=
  let url := recommendUrl studentId topN
  match fetchJson url with
  | .ok body => (url, some body)
  | .error _ => (url, none)

/-!
Concrete pages used as witnesses and counterexamples.
-/

/-- A page whose feedback form sits in open panel `fb1` and whose submit
button originally reads `"Send"`. -/
def pageSend : Page :=
  { hasContainer := true
    containerChildren := []
    nextId := 0
    now := 0
    timers := []
    form := { fields := ["great"], submitBtn := some ⟨"Send", false⟩,
              closestCollapse := some "fb1" }
    panels := [⟨"fb1", true⟩] }

/-- The same page with no `.container` element in the document. -/
def pageNoContainer : Page :=
  { pageSend with hasContainer := false }

/-!
Helper lemmas about the DOM-state transformers.
-/

lemma showAlert_of_hasContainer (m sev : String) (p : Page) (h : p.hasContainer = true) :
    showAlert m sev p = .ok (alertInserted m sev p) := by
  simp [showAlert, h]

lemma alertInserted_children (m sev : String) (p : Page) :
    (alertInserted m sev p).containerChildren = ⟨p.nextId, m, sev⟩ :: p.containerChildren :=
  rfl

lemma alertInserted_form (m sev : String) (p : Page) :
    (alertInserted m sev p).form = p.form := rfl

lemma alertInserted_panels (m sev : String) (p : Page) :
    (alertInserted m sev p).panels = p.panels := rfl

lemma showAlert_of_noContainer (m sev : String) (p : Page) (h : p.hasContainer = false) :
    showAlert m sev p = .error "TypeError" := by
  simp [showAlert, h]

lemma showAlert_form {m sev : String} {p p' : Page} (h : showAlert m sev p = .ok p') :
    p'.form = p.form := by
  unfold showAlert at h
  split at h
  · cases h; rfl
  · cases h

lemma showAlert_panels {m sev : String} {p p' : Page} (h : showAlert m sev p = .ok p') :
    p'.panels = p.panels := by
  unfold showAlert at h
  split at h
  · cases h; rfl
  · cases h

lemma collapseClosest_form (p : Page) : (collapseClosest p).form = p.form := by
  unfold collapseClosest; split <;> rfl

lemma collapseClosest_children (p : Page) :
    (collapseClosest p).containerChildren = p.containerChildren := by
  unfold collapseClosest; split <;> rfl

lemma restoreSubmitBtn_of_some {p : Page} {b : SubmitButton} (h : p.form.submitBtn = some b) :
    (restoreSubmitBtn p).form.submitBtn = some ⟨submitRestoreLabel, false⟩ := by
  unfold restoreSubmitBtn; rw [h]

lemma restoreSubmitBtn_children (p : Page) :
    (restoreSubmitBtn p).containerChildren = p.containerChildren := by
  unfold restoreSubmitBtn; split <;> rfl

lemma restoreSubmitBtn_fields (p : Page) :
    (restoreSubmitBtn p).form.fields = p.form.fields := by
  unfold restoreSubmitBtn; split <;> rfl

lemma restoreSubmitBtn_panels (p : Page) : (restoreSubmitBtn p).panels = p.panels := by
  unfold restoreSubmitBtn; split <;> rfl

lemma handleFeedbackResponse_ok_submitBtn {st em : String} {p p' : Page}
    (h : handleFeedbackResponse st em p = .ok p') :
    p'.form.submitBtn = p.form.submitBtn := by
  unfold handleFeedbackResponse at h
  by_cases hst : (st == "success") = true
  · rw [if_pos hst] at h
    rcases hA : showAlert "Thank you for your feedback!" "success" p with e | p1 <;>
      rw [hA] at h <;> simp [Except.map] at h
    rw [← h, collapseClosest_form]
    have := showAlert_form hA
    simp [resetFormFields, this]
  · rw [if_neg hst] at h
    rw [showAlert_form h]

lemma handleFeedbackError_ok_form {p p' : Page} (h : handleFeedbackError p = .ok p') :
    p'.form = p.form :=
  showAlert_form h

lemma runCatchStage_submitBtn (p : Page) :
    (runCatchStage p).1.form.submitBtn = p.form.submitBtn := by
  unfold runCatchStage
  rcases hE : handleFeedbackError p with e | p2
  · rfl
  · show p2.form.submitBtn = p.form.submitBtn
    rw [handleFeedbackError_ok_form hE]

lemma submitFeedbackThenCatch_submitBtn (outcome : FetchOutcome) (p : Page) :
    (submitFeedbackThenCatch outcome p).1.form.submitBtn = p.form.submitBtn := by
  rcases outcome with ⟨st, em⟩ | _
  · show (match handleFeedbackResponse st em p with
          | Except.ok p1 => (p1, false)
          | Except.error _ => runCatchStage p).1.form.submitBtn = p.form.submitBtn
    rcases hR : handleFeedbackResponse st em p with e | p1
    · exact runCatchStage_submitBtn p
    · show p1.form.submitBtn = p.form.submitBtn
      rw [handleFeedbackResponse_ok_submitBtn hR]
  · exact runCatchStage_submitBtn p

lemma setBusyState_of_some {p : Page} {b : SubmitButton} (h : p.form.submitBtn = some b) :
    (setBusyState p).form.submitBtn = some ⟨processingLabel, true⟩ := by
  unfold setBusyState; rw [h]

lemma resetFormFields_fields (p : Page) :
    (resetFormFields p).form.fields = p.form.fields.map (fun _ => "") := rfl

lemma collapseClosest_panels_of_some {p : Page} {cid : String}
    (h : p.form.closestCollapse = some cid) :
    (collapseClosest p).panels = hidePanel cid p.panels := by
  unfold collapseClosest; rw [h]

lemma panelExpanded_hidePanel (pid : String) (ps : List Panel) :
    panelExpanded pid (hidePanel pid ps) = false := by
  induction ps with
  | nil => rfl
  | cons a t ih =>
    simp only [panelExpanded, hidePanel, List.map_cons, List.any_cons,
      Bool.or_eq_false_iff] at ih ⊢
    refine ⟨?_, by simpa [panelExpanded, hidePanel] using ih⟩
    by_cases h : a.id = pid
    · simp [h]
    · simp [h]

lemma handleFeedbackResponse_success {st : String} (em : String) (p : Page)
    (hc : p.hasContainer = true) (hst : (st == "success") = true) :
    handleFeedbackResponse st em p =
      .ok (collapseClosest (resetFormFields
        (alertInserted "Thank you for your feedback!" "success" p))) := by
  unfold handleFeedbackResponse
  rw [if_pos hst, showAlert_of_hasContainer _ _ _ hc]
  rfl

lemma submitFeedback_success_case (st em : String) (p : Page)
    (hc : p.hasContainer = true) (hst : (st == "success") = true) :
    submitFeedback (.response st em) p =
      (restoreSubmitBtn (collapseClosest (resetFormFields
        (alertInserted "Thank you for your feedback!" "success" p))), false) := by
  have hTC : submitFeedbackThenCatch (.response st em) p =
      (collapseClosest (resetFormFields
        (alertInserted "Thank you for your feedback!" "success" p)), false) := by
    show (match handleFeedbackResponse st em p with
          | Except.ok p1 => (p1, false)
          | Except.error _ => runCatchStage p) = _
    rw [handleFeedbackResponse_success em p hc hst]
  unfold submitFeedback
  rw [hTC]

lemma submitFeedback_danger_result {outcome : FetchOutcome} {p : Page}
    (hc : p.hasContainer = true) (hns : isSuccessResponse outcome = false) :
    ∃ msg, submitFeedback outcome p =
      (restoreSubmitBtn (alertInserted msg "danger" p), false) := by
  rcases outcome with ⟨st, em⟩ | _
  · have hst : (st == "success") = false := by
      simpa [isSuccessResponse] using hns
    have hR : handleFeedbackResponse st em p =
        .ok (alertInserted ("Error submitting feedback: " ++ em) "danger" p) := by
      unfold handleFeedbackResponse
      rw [if_neg (by simp [hst])]
      exact showAlert_of_hasContainer _ _ _ hc
    refine ⟨"Error submitting feedback: " ++ em, ?_⟩
    have hTC : submitFeedbackThenCatch (.response st em) p =
        (alertInserted ("Error submitting feedback: " ++ em) "danger" p, false) := by
      show (match handleFeedbackResponse st em p with
            | Except.ok p1 => (p1, false)
            | Except.error _ => runCatchStage p) = _
      rw [hR]
    unfold submitFeedback
    rw [hTC]
  · refine ⟨"Error submitting feedback. Please try again.", ?_⟩
    have hE : handleFeedbackError p =
        .ok (alertInserted "Error submitting feedback. Please try again." "danger" p) :=
      showAlert_of_hasContainer _ _ _ hc
    have hTC : submitFeedbackThenCatch .failure p =
        (alertInserted "Error submitting feedback. Please try again." "danger" p, false) := by
      show runCatchStage p = _
      unfold runCatchStage
      rw [hE]
    unfold submitFeedback
    rw [hTC]

/-!
Claims C4, C9 and C5: the pure scoring utilities.
-/

/-- C4: `getScoreColor` on a finite score `s` returns `"success"` iff
`s ≥ 0.8`, `"warning"` iff `0.6 ≤ s < 0.8`, and `"secondary"` iff `s < 0.6`;
each tier's lower boundary is inclusive. -/
theorem getScoreColor_tiers (s : ℚ) :
    (getScoreColor (.num s) = "success" ↔ (8 : ℚ)/10 ≤ s) ∧
    (getScoreColor (.num s) = "warning" ↔ (6 : ℚ)/10 ≤ s ∧ s < (8 : ℚ)/10) ∧
    (getScoreColor (.num s) = "secondary" ↔ s < (6 : ℚ)/10) := by
  have e8 : (0.8 : ℚ) = 8/10 := by norm_num
  have e6 : (0.6 : ℚ) = 6/10 := by norm_num
  rcases le_or_lt ((8 : ℚ)/10) s with hs8 | hs8
  · have hv : getScoreColor (.num s) = "success" := by
      have hb : jsGe (.num s) (.num 0.8) = true := by
        simp only [jsGe, decide_eq_true_eq]; rw [e8]; exact hs8
      simp [getScoreColor, hb]
    refine ⟨by simp [hv, hs8], ?_, ?_⟩
    · rw [hv]
      constructor
      · intro h; exact absurd h (by decide)
      · rintro ⟨-, h⟩; exact absurd hs8 (not_le.mpr h)
    · rw [hv]
      constructor
      · intro h; exact absurd h (by decide)
      · intro h
        exact absurd hs8 (not_le.mpr (lt_of_lt_of_le h (by norm_num)))
  · rcases le_or_lt ((6 : ℚ)/10) s with hs6 | hs6
    · have hv : getScoreColor (.num s) = "warning" := by
        have hb1 : jsGe (.num s) (.num 0.8) = false := by
          simp only [jsGe, decide_eq_false_iff_not]; rw [e8]; exact not_le.mpr hs8
        have hb2 : jsGe (.num s) (.num 0.6) = true := by
          simp only [jsGe, decide_eq_true_eq]; rw [e6]; exact hs6
        simp [getScoreColor, hb1, hb2]
      refine ⟨?_, by simp [hv, hs6, hs8], ?_⟩
      · rw [hv]
        constructor
        · intro h; exact absurd h (by decide)
        · intro h; exact absurd h (not_le.mpr hs8)
      · rw [hv]
        constructor
        · intro h; exact absurd h (by decide)
        · intro h; exact absurd hs6 (not_le.mpr h)
    · have hv : getScoreColor (.num s) = "secondary" := by
        have hb1 : jsGe (.num s) (.num 0.8) = false := by
          simp only [jsGe, decide_eq_false_iff_not]
          rw [e8]; exact not_le.mpr (lt_trans hs6 (by norm_num))
        have hb2 : jsGe (.num s) (.num 0.6) = false := by
          simp only [jsGe, decide_eq_false_iff_not]; rw [e6]; exact not_le.mpr hs6
        simp [getScoreColor, hb1, hb2]
      refine ⟨?_, ?_, by simp [hv, hs6]⟩
      · rw [hv]
        constructor
        · intro h; exact absurd h (by decide)
        · intro h; linarith
      · rw [hv]
        constructor
        · intro h; exact absurd h (by decide)
        · rintro ⟨h, -⟩; linarith

/-- C9: `getScoreColor` is total over all JavaScript numbers: it always returns
one of the three labels (in particular it never throws and never returns a
fourth value), any input greater than 1 (including `+∞`) yields `"success"`,
any negative input (including `-∞`) yields `"secondary"`, and `NaN` (for which
both `>=` comparisons are false) yields `"secondary"`. -/
theorem getScoreColor_total (s : JSNum) :
    (getScoreColor s = "success" ∨ getScoreColor s = "warning" ∨
      getScoreColor s = "secondary") ∧
    (∀ q : ℚ, s = .num q → 1 < q → getScoreColor s = "success") ∧
    (s = .posInf → getScoreColor s = "success") ∧
    (∀ q : ℚ, s = .num q → q < 0 → getScoreColor s = "secondary") ∧
    (s = .negInf → getScoreColor s = "secondary") ∧
    (s = .nan → getScoreColor s = "secondary") := by
  refine ⟨?_, ?_, ?_, ?_, ?_, ?_⟩
  · unfold getScoreColor
    split
    · exact Or.inl rfl
    · split
      · exact Or.inr (Or.inl rfl)
      · exact Or.inr (Or.inr rfl)
  · rintro q rfl hq
    have : (0.8 : ℚ) ≤ q := le_of_lt (lt_of_le_of_lt (by norm_num) hq)
    simp [getScoreColor, jsGe, this]
  · rintro rfl; rfl
  · rintro q rfl hq
    have h8 : ¬ (0.8 : ℚ) ≤ q := not_le.mpr (lt_trans hq (by norm_num))
    have h6 : ¬ (0.6 : ℚ) ≤ q := not_le.mpr (lt_trans hq (by norm_num))
    simp [getScoreColor, jsGe, h8, h6]
  · rintro rfl; rfl
  · rintro rfl; rfl

/-- C9 witness: the totality theorem instantiated at concrete inputs 2, −1 and
`NaN`, discharging each hypothesis there. -/
theorem getScoreColor_total_witness :
    getScoreColor (.num 2) = "success" ∧
    getScoreColor (.num (-1)) = "secondary" ∧
    getScoreColor .nan = "secondary" :=
  ⟨(getScoreColor_total (.num 2)).2.1 2 rfl (by norm_num),
   (getScoreColor_total (.num (-1))).2.2.2.1 (-1) rfl (by norm_num),
   (getScoreColor_total .nan).2.2.2.2.2 rfl⟩

/-- C5: for every score `s` in `[0,1]`, `formatScore s` is the string made of
`s * 100` rounded to exactly one decimal place, followed by `"%"`: there is an
integer `n` (the printed number of tenths of a percent, so the printed value is
`n / 10`) within `1/2` of `s * 1000`, and the output is `"<n/10>.<n mod 10>%"`.
Numbers are modelled as exact rationals. -/
theorem formatScore_rounds (s : ℚ) (h0 : 0 ≤ s) (h1 : s ≤ 1) :
    ∃ n : ℤ, 0 ≤ n ∧ n ≤ 1000 ∧ |(n : ℚ) - s * 1000| ≤ 1/2 ∧
      formatScore s = toString (n / 10) ++ "." ++ toString (n % 10) ++ "%" := by
  refine ⟨⌊s * 100 * 10 + 1/2⌋, ?_, ?_, ?_, rfl⟩
  · refine Int.le_floor.mpr ?_
    push_cast
    linarith
  · have hle : ((⌊s * 100 * 10 + 1/2⌋ : ℤ) : ℚ) ≤ s * 100 * 10 + 1/2 :=
      Int.floor_le _
    by_contra hn
    push_neg at hn
    have h1001 : (1001 : ℤ) ≤ ⌊s * 100 * 10 + 1/2⌋ := hn
    have hcast : (1001 : ℚ) ≤ ((⌊s * 100 * 10 + 1/2⌋ : ℤ) : ℚ) := by
      exact_mod_cast h1001
    linarith
  · have hle : ((⌊s * 100 * 10 + 1/2⌋ : ℤ) : ℚ) ≤ s * 100 * 10 + 1/2 :=
      Int.floor_le _
    have hgt : s * 100 * 10 + 1/2 < ((⌊s * 100 * 10 + 1/2⌋ : ℤ) : ℚ) + 1 :=
      Int.lt_floor_add_one _
    rw [abs_le]
    constructor <;> nlinarith

/-- C5 witness: the rounding theorem instantiated at the spec's example score
`0.873 = 873/1000`, discharging both range hypotheses there. -/
theorem formatScore_rounds_witness :
    ∃ n : ℤ, 0 ≤ n ∧ n ≤ 1000 ∧ |(n : ℚ) - (873/1000 : ℚ) * 1000| ≤ 1/2 ∧
      formatScore (873/1000) = toString (n / 10) ++ "." ++ toString (n % 10) ++ "%" :=
  formatScore_rounds (873/1000) (by norm_num) (by norm_num)

/-!
Claims C1 and C8: the busy state and the `finally` block.
-/

/-- C1 counterexample: the claim says the `finally` block restores the
button's original label, but the code writes the fixed markup
`'<i class="fas fa-check"></i> Submit'` without ever saving the original.
On a page whose button originally reads `"Send"`, a completed submission
leaves the label equal to the fixed markup, which differs from `"Send"`, so
the original label is not restored. -/
theorem submitFeedback_fixed_label_counterexample :
    (feedbackSubmitFlow (.response "success" "") pageSend).1.form.submitBtn.map
        SubmitButton.innerHTML = some submitRestoreLabel ∧
    pageSend.form.submitBtn.map SubmitButton.innerHTML = some "Send" ∧
    submitRestoreLabel ≠ "Send" := by
  refine ⟨by decide, rfl, by decide⟩

/-- C1 (amended): for every completed feedback submission, regardless of
outcome (success response, non-success response, or network/decode failure),
`submitFeedback`'s `finally` block re-enables the triggering form's submit
button and sets its label to the fixed markup
`'<i class="fas fa-check"></i> Submit'`, on every exit path — so the original
label is recovered only when it was already that markup. -/
theorem submitFeedback_reenables_button (outcome : FetchOutcome) (p : Page)
    (b : SubmitButton) (hb : p.form.submitBtn = some b) :
    (feedbackSubmitFlow outcome p).1.form.submitBtn = some ⟨submitRestoreLabel, false⟩ := by
  have hq : (setBusyState p).form.submitBtn = some ⟨processingLabel, true⟩ :=
    setBusyState_of_some hb
  show (restoreSubmitBtn (submitFeedbackThenCatch outcome (setBusyState p)).1).form.submitBtn
      = some ⟨submitRestoreLabel, false⟩
  have hpres := submitFeedbackThenCatch_submitBtn outcome (setBusyState p)
  rw [hq] at hpres
  exact restoreSubmitBtn_of_some hpres

/-- C1 witness: the amended theorem at `pageSend` with a rejected fetch,
discharging the button-exists hypothesis there. -/
theorem submitFeedback_reenables_button_witness :
    (feedbackSubmitFlow .failure pageSend).1.form.submitBtn
      = some ⟨submitRestoreLabel, false⟩ :=
  submitFeedback_reenables_button .failure pageSend ⟨"Send", false⟩ rfl

/-- C8: on every form submission on the page (the generic listener is attached
to every form, not only feedback forms), when the form has a submit button the
listener synchronously sets it to the disabled, busy-labeled state; the
asynchronous feedback work is applied only afterwards, to the busy state
(`feedbackSubmitFlow` is by definition `submitFeedback` after
`setBusyState`). -/
theorem setBusyState_busy (p : Page) (b : SubmitButton) (outcome : FetchOutcome)
    (hb : p.form.submitBtn = some b) :
    (setBusyState p).form.submitBtn = some ⟨processingLabel, true⟩ ∧
    feedbackSubmitFlow outcome p = submitFeedback outcome (setBusyState p) :=
  ⟨setBusyState_of_some hb, rfl⟩

/-- C8 witness: the busy-state theorem at `pageSend` with a rejected fetch,
discharging the button-exists hypothesis there. -/
theorem setBusyState_busy_witness :
    (setBusyState pageSend).form.submitBtn = some ⟨processingLabel, true⟩ ∧
    feedbackSubmitFlow .failure pageSend = submitFeedback .failure (setBusyState pageSend) :=
  setBusyState_busy pageSend ⟨"Send", false⟩ .failure rfl

/-!
Claim C2: the two terminal UI states of a feedback submission.
-/

/-- C2: on a page with a `.container`, every feedback submission settles
(flag `false`) in exactly one of two terminal UI states.  If the decoded body
has `status == "success"`: the success banner with the fixed message is the
container's first child, the origin form's fields are reset to empty, and any
nearest ancestor collapsible panel is collapsed.  Otherwise (non-success
status, or network/parse failure): a danger banner is the first child and the
form's fields are untouched.  The two states are mutually exclusive: which one
occurs is exactly `isSuccessResponse outcome`. -/
theorem submitFeedback_terminal_states (outcome : FetchOutcome) (p : Page)
    (hc : p.hasContainer = true) :
    (submitFeedback outcome p).2 = false ∧
    (isSuccessResponse outcome = true →
      (submitFeedback outcome p).1.containerChildren.head? =
        some ⟨p.nextId, "Thank you for your feedback!", "success"⟩ ∧
      (submitFeedback outcome p).1.form.fields = p.form.fields.map (fun _ => "") ∧
      ∀ cid, p.form.closestCollapse = some cid →
        panelExpanded cid (submitFeedback outcome p).1.panels = false) ∧
    (isSuccessResponse outcome = false →
      (∃ msg, (submitFeedback outcome p).1.containerChildren.head? =
        some ⟨p.nextId, msg, "danger"⟩) ∧
      (submitFeedback outcome p).1.form.fields = p.form.fields) := by
  cases hS : isSuccessResponse outcome with
  | false =>
    obtain ⟨msg, hSF⟩ := submitFeedback_danger_result hc hS
    refine ⟨by rw [hSF], by intro h; simp at h, ?_⟩
    intro _
    constructor
    · refine ⟨msg, ?_⟩
      rw [hSF]
      show (restoreSubmitBtn (alertInserted msg "danger" p)).containerChildren.head? = _
      rw [restoreSubmitBtn_children, alertInserted_children, List.head?_cons]
    · rw [hSF]
      show (restoreSubmitBtn (alertInserted msg "danger" p)).form.fields = p.form.fields
      rw [restoreSubmitBtn_fields]
      rfl
  | true =>
    rcases outcome with ⟨st, em⟩ | _
    · have hst : (st == "success") = true := by simpa [isSuccessResponse] using hS
      have hSF := submitFeedback_success_case st em p hc hst
      refine ⟨by rw [hSF], ?_, by intro h; simp at h⟩
      intro _
      refine ⟨?_, ?_, ?_⟩
      · rw [hSF]
        show (restoreSubmitBtn (collapseClosest (resetFormFields
            (alertInserted "Thank you for your feedback!" "success" p)))).containerChildren.head?
          = _
        rw [restoreSubmitBtn_children, collapseClosest_children]
        rfl
      · rw [hSF]
        show (restoreSubmitBtn (collapseClosest (resetFormFields
            (alertInserted "Thank you for your feedback!" "success" p)))).form.fields = _
        rw [restoreSubmitBtn_fields, collapseClosest_form]
        rfl
      · intro cid hcid
        rw [hSF]
        show panelExpanded cid (restoreSubmitBtn (collapseClosest (resetFormFields
            (alertInserted "Thank you for your feedback!" "success" p)))).panels = false
        rw [restoreSubmitBtn_panels]
        have hcid2 : (resetFormFields
            (alertInserted "Thank you for your feedback!" "success" p)).form.closestCollapse
            = some cid := hcid
        rw [collapseClosest_panels_of_some hcid2]
        exact panelExpanded_hidePanel cid _
    · simp [isSuccessResponse] at hS

/-- C2 witness: the terminal-state theorem at `pageSend` with a success
response, discharging the container hypothesis there: the flag is settled,
the success banner is the first child, and panel `fb1` is collapsed. -/
theorem submitFeedback_terminal_states_witness :
    (submitFeedback (.response "success" "") pageSend).2 = false ∧
    (submitFeedback (.response "success" "") pageSend).1.containerChildren.head? =
      some ⟨0, "Thank you for your feedback!", "success"⟩ ∧
    panelExpanded "fb1" (submitFeedback (.response "success" "") pageSend).1.panels = false := by
  have h := submitFeedback_terminal_states (.response "success" "") pageSend rfl
  exact ⟨h.1, (h.2.1 rfl).1, (h.2.1 rfl).2.2 "fb1" rfl⟩

/-!
Claim C7: the alert banner lifecycle.
-/

lemma all_not_filter (aid : Nat) (l : List AlertDiv) :
    (l.filter (fun d => !(d.id == aid))).all (fun d => !(d.id == aid)) = true := by
  rw [List.all_eq_true]
  intro d hd
  exact (List.mem_filter.mp hd).2

lemma any_filter_self (aid : Nat) (l : List AlertDiv) :
    (l.filter (fun d => !(d.id == aid))).any (fun d => d.id == aid) = false := by
  rw [Bool.eq_false_iff]
  intro hcontra
  rw [List.any_eq_true] at hcontra
  obtain ⟨d, hd, hid⟩ := hcontra
  have h2 := (List.mem_filter.mp hd).2
  rw [hid] at h2
  simp at h2

/-- C7: `showAlert` inserts the new banner as the first child of the page's
main container, and schedules its removal exactly `alertTimeout = 5000` ms
after creation.  When the timer fires with the banner still attached, the
banner is removed; when the banner was manually dismissed first, the timer
callback's guarded removal is a no-op that raises no error (the state is
returned unchanged). -/
theorem showAlert_lifecycle (m sev : String) (p : Page) (hc : p.hasContainer = true) :
    showAlert m sev p = .ok (alertInserted m sev p) ∧
    (alertInserted m sev p).containerChildren.head? = some ⟨p.nextId, m, sev⟩ ∧
    (alertInserted m sev p).timers.head? = some (p.now + alertTimeout, p.nextId) ∧
    alertTimeout = 5000 ∧
    (fireAlertTimeout p.nextId (alertInserted m sev p)).containerChildren.all
      (fun d => !(d.id == p.nextId)) = true ∧
    fireAlertTimeout p.nextId (dismissAlert p.nextId (alertInserted m sev p)) =
      dismissAlert p.nextId (alertInserted m sev p) := by
  refine ⟨showAlert_of_hasContainer m sev p hc, rfl, rfl, rfl, ?_, ?_⟩
  · have hpresent : (alertInserted m sev p).containerChildren.any
        (fun d => d.id == p.nextId) = true := by
      rw [alertInserted_children]
      simp
    have h5 : fireAlertTimeout p.nextId (alertInserted m sev p) =
        dismissAlert p.nextId (alertInserted m sev p) := by
      unfold fireAlertTimeout
      rw [if_pos hpresent]
    rw [h5]
    show ((alertInserted m sev p).containerChildren.filter
        (fun d => !(d.id == p.nextId))).all (fun d => !(d.id == p.nextId)) = true
    exact all_not_filter _ _
  · have hnone : ((dismissAlert p.nextId (alertInserted m sev p)).containerChildren.any
        (fun d => d.id == p.nextId)) = false := any_filter_self _ _
    unfold fireAlertTimeout
    rw [hnone]
    simp

/-- C7 witness: the lifecycle theorem at a concrete page and banner,
discharging the container hypothesis there. -/
theorem showAlert_lifecycle_witness :
    showAlert "hello" "info" pageSend = .ok (alertInserted "hello" "info" pageSend) ∧
    (alertInserted "hello" "info" pageSend).containerChildren.head? =
      some ⟨pageSend.nextId, "hello", "info"⟩ ∧
    (alertInserted "hello" "info" pageSend).timers.head? =
      some (pageSend.now + alertTimeout, pageSend.nextId) ∧
    alertTimeout = 5000 ∧
    (fireAlertTimeout pageSend.nextId
      (alertInserted "hello" "info" pageSend)).containerChildren.all
      (fun d => !(d.id == pageSend.nextId)) = true ∧
    fireAlertTimeout pageSend.nextId
        (dismissAlert pageSend.nextId (alertInserted "hello" "info" pageSend)) =
      dismissAlert pageSend.nextId (alertInserted "hello" "info" pageSend) :=
  showAlert_lifecycle "hello" "info" pageSend rfl

/-!
Claim C10: the `.container` element is a precondition of every
alert-producing path.
-/

/-- C10: when no element matches `.container`, `querySelector` returns null
and the `insertBefore` call in `showAlert` throws, so no alert is shown for
any message; on every fetch outcome the whole feedback chain ends rejected
(both the `then`-path alert and the `catch`-path alert throw), the container's
children are unchanged, and the form is not reset — container existence is an
unstated precondition of every alert-producing path of `submitFeedback`. -/
theorem showAlert_requires_container (m sev : String) (outcome : FetchOutcome) (p : Page)
    (hc : p.hasContainer = false) :
    showAlert m sev p = .error "TypeError" ∧
    (submitFeedback outcome p).2 = true ∧
    (submitFeedback outcome p).1.containerChildren = p.containerChildren ∧
    (submitFeedback outcome p).1.form.fields = p.form.fields := by
  have hsa : ∀ m2 sev2, showAlert m2 sev2 p = Except.error "TypeError" :=
    fun m2 sev2 => showAlert_of_noContainer m2 sev2 p hc
  have hcatch : runCatchStage p = (p, true) := by
    unfold runCatchStage handleFeedbackError
    rw [hsa]
  have hTC : submitFeedbackThenCatch outcome p = (p, true) := by
    rcases outcome with ⟨st, em⟩ | _
    · show (match handleFeedbackResponse st em p with
            | Except.ok p1 => (p1, false)
            | Except.error _ => runCatchStage p) = (p, true)
      have hR : handleFeedbackResponse st em p = .error "TypeError" := by
        unfold handleFeedbackResponse
        by_cases hst : (st == "success") = true
        · rw [if_pos hst, hsa]
          rfl
        · rw [if_neg hst]
          exact hsa _ _
      rw [hR]
      exact hcatch
    · exact hcatch
  have hSF : submitFeedback outcome p = (restoreSubmitBtn p, true) := by
    unfold submitFeedback
    rw [hTC]
  refine ⟨hsa m sev, by rw [hSF], ?_, ?_⟩
  · rw [hSF]
    show (restoreSubmitBtn p).containerChildren = p.containerChildren
    exact restoreSubmitBtn_children p
  · rw [hSF]
    show (restoreSubmitBtn p).form.fields = p.form.fields
    exact restoreSubmitBtn_fields p

/-- C10 witness: the precondition theorem at the container-less page with a
rejected fetch, discharging the no-container hypothesis there. -/
theorem showAlert_requires_container_witness :
    showAlert "Thank you for your feedback!" "success" pageNoContainer =
      .error "TypeError" ∧
    (submitFeedback .failure pageNoContainer).2 = true ∧
    (submitFeedback .failure pageNoContainer).1.containerChildren =
      pageNoContainer.containerChildren ∧
    (submitFeedback .failure pageNoContainer).1.form.fields =
      pageNoContainer.form.fields :=
  showAlert_requires_container "Thank you for your feedback!" "success" .failure
    pageNoContainer rfl

/-!
Claim C3: the single-open-form invariant of the `.feedback-btn` click handler.
-/

/-- C3: when a `feedback-btn` toggle is clicked (the listener runs
synchronously within the click), every currently-expanded panel whose id
differs from the button's target (`data-bs-target` minus its leading `#`) is
closed, expanded panels with the target id are left untouched, and afterwards
at most panels with the target id are expanded. -/
theorem feedbackBtnClick_single_open (bsTarget : String) (panels : List Panel) :
    (∀ pl, pl ∈ feedbackBtnClick bsTarget panels → pl.shown = true →
      pl.id = bsTarget.drop 1) ∧
    (∀ pl, pl ∈ panels → pl.shown = true → pl.id ≠ bsTarget.drop 1 →
      Panel.mk pl.id false ∈ feedbackBtnClick bsTarget panels) ∧
    (∀ pl, pl ∈ panels → pl.id = bsTarget.drop 1 →
      pl ∈ feedbackBtnClick bsTarget panels) := by
  refine ⟨?_, ?_, ?_⟩
  · intro pl hmem hshown
    obtain ⟨a, ha, heq⟩ := List.mem_map.mp hmem
    by_cases h : (a.shown && !(a.id == bsTarget.drop 1)) = true
    · rw [if_pos h] at heq
      rw [← heq] at hshown
      simp at hshown
    · rw [if_neg h] at heq
      subst heq
      have hbeq : (a.id == bsTarget.drop 1) = true := by
        rcases Bool.eq_false_or_eq_true (a.id == bsTarget.drop 1) with ht | hf
        · exact ht
        · exact absurd (show (a.shown && !(a.id == bsTarget.drop 1)) = true by
            rw [hshown, hf]; rfl) h
      exact eq_of_beq hbeq
  · intro pl hmem hshown hne
    refine List.mem_map.mpr ⟨pl, hmem, ?_⟩
    have hbeq : (pl.id == bsTarget.drop 1) = false := by
      rcases Bool.eq_false_or_eq_true (pl.id == bsTarget.drop 1) with ht | hf
      · exact absurd (eq_of_beq ht) hne
      · exact hf
    rw [if_pos (show (pl.shown && !(pl.id == bsTarget.drop 1)) = true by
      rw [hshown, hbeq]; rfl)]
  · intro pl hmem hid
    refine List.mem_map.mpr ⟨pl, hmem, ?_⟩
    have hbeq : (pl.id == bsTarget.drop 1) = true := beq_iff_eq.mpr hid
    simp [hbeq]

/-- C3 witness: the invariant theorem at two open panels and target `#fb2`,
discharging each hypothesis there: the open non-target panel `fb1` comes out
closed. -/
theorem feedbackBtnClick_single_open_witness :
    Panel.mk "fb1" false ∈ feedbackBtnClick "#fb2" [⟨"fb1", true⟩, ⟨"fb2", true⟩] :=
  (feedbackBtnClick_single_open "#fb2" [⟨"fb1", true⟩, ⟨"fb2", true⟩]).2.1
    ⟨"fb1", true⟩ (by decide) rfl (by decide)

/-!
Claim C6: the `getRecommendations` contract.
-/

/-- C6: for every student id and `topN`, `getRecommendations` issues a GET to
exactly `/api/recommend/{studentId}?top_n={topN}` and returns the decoded
body when the oracle succeeds, and `null` (`none`) when the request or decode
fails; it is a total function of the oracle's answer, so no failure is thrown
or propagated to the caller.  Concretely, student `"42"` with `top_n = 3`
yields the URL `/api/recommend/42?top_n=3`. -/
theorem getRecommendations_contract (α : Type) (fetchJson : String → Except String α)
    (studentId : String) (topN : Nat) :
    getRecommendations fetchJson studentId topN =
      (recommendUrl studentId topN, (fetchJson (recommendUrl studentId topN)).toOption) ∧
    recommendUrl "42" 3 = "/api/recommend/42?top_n=3" := by
  constructor
  · show (match fetchJson (recommendUrl studentId topN) with
          | Except.ok body => (recommendUrl studentId topN, some body)
          | Except.error _ => (recommendUrl studentId topN, none)) = _
    rcases h : fetchJson (recommendUrl studentId topN) with e | body
    · rfl
    · rfl
  · decide
